import Mathlib

/-!
Verification of the DM-v2 programming-assistant core against its
natural-language specification.

The Python sources are shallowly embedded as executable Lean definitions:
  * `src/utils.py`            → `extract_code` and its helpers
  * `src/code_analyzer.py`    → `CodeAnalyzer.analyze` over an embedded Python AST
  * `src/api_clients/*.py`    → provider clients, key resolution, factory
  * `src/assistant.py`        → the `ProgrammingAssistant` orchestrator

Machine-level Python behaviours are made explicit: a `try`/`except` block
becomes an `Except` value, the environment becomes a function
`String → Option String`, the outcome of the single HTTP call becomes an
explicit `CallOutcome` argument, and `ast.parse` (the CPython parser, which
is outside the repository) becomes an explicit `Except String PyStmt`
argument supplied by the caller.
-/

namespace DM

/-! ## Basic character and string helpers (Python semantics) -/

/-- Python's `\s` character class (ASCII part): space, tab, newline,
carriage return, form feed, vertical tab. -/
def pyWhitespace (c : Char) : Bool :=
  c = ' ' || c = '\t' || c = '\n' || c = '\r' || c = Char.ofNat 12 || c = Char.ofNat 11

/-- Python's `\w` character class (ASCII part): letters, digits, underscore. -/
def pyWordChar (c : Char) : Bool :=
  c.isAlphanum || c = '_'

/-- Python's `str.lower()` (ASCII reading): map every character to lower
case.  (Defined explicitly over the character list so that it evaluates
by kernel reduction.) -/
def pyLower (s : String) : String :=
  String.mk (s.data.map Char.toLower)

/-- The backtick character (written via its code point). -/
def btick : Char := Char.ofNat 96

/-- Python's `str.strip()` (ASCII reading): drop leading and trailing
whitespace. -/
def pyStrip (s : String) : String :=
  String.mk (((s.data.dropWhile pyWhitespace).reverse.dropWhile pyWhitespace).reverse)

/-- `line.strip() == ''`: every character of the line is whitespace. -/
def pyBlank (l : List Char) : Bool :=
  l.all pyWhitespace

/-- `text.split('\n')` on a character list: the empty text yields one empty
segment, every `'\n'` starts a new segment. -/
def splitNl : List Char → List (List Char)
  | [] => [[]]
  | c :: cs =>
    if c = '\n' then [] :: splitNl cs
    else
      match splitNl cs with
      | [] => [[c]]
      | l :: ls => (c :: l) :: ls

/-- `'\n'.join(lines)` on character lists. -/
def joinNl : List (List Char) → List Char
  | [] => []
  | [l] => l
  | l :: ls => l ++ '\n' :: joinNl ls

/-- Does `pat` occur as a leading segment of `l`?  If so return the rest. -/
def dropPre : List Char → List Char → Option (List Char)
  | [], l => some l
  | _ :: _, [] => none
  | p :: ps, c :: cs => if p = c then dropPre ps cs else none

/-- Substring search: does `pat` occur anywhere inside `l`? -/
def hasSub (pat : List Char) (l : List Char) : Bool :=
  match l with
  | [] => (dropPre pat []).isSome
  | _ :: cs => (dropPre pat l).isSome || hasSub pat cs

/-- Substring search on strings (Python `in`). -/
def strHasSub (pat s : String) : Bool :=
  hasSub pat.data s.data

theorem dropWhile_length_le {α : Type} (p : α → Bool) :
    ∀ l : List α, (l.dropWhile p).length ≤ l.length
  | [] => Nat.le_refl _
  | c :: cs => by
    rw [List.dropWhile_cons]
    split
    · exact Nat.le_succ_of_le (dropWhile_length_le p cs)
    · exact Nat.le_refl _

/-- Number of whitespace-separated words, Python `len(s.split())`:
maximal nonempty runs of non-whitespace characters. -/
def wordCount : List Char → Nat
  | [] => 0
  | c :: cs =>
    if pyWhitespace c then wordCount cs
    else 1 + wordCount (cs.dropWhile (fun d => ¬ pyWhitespace d))
  termination_by l => l.length
  decreasing_by
    · simp only [List.length_cons]
      exact Nat.lt_succ_self _
    · simp only [List.length_cons]
      exact Nat.lt_succ_of_le (dropWhile_length_le _ _)

/-! ## `extract_code` (src/utils.py, lines 9–45)

The primary strategy is the regex
`re.findall(r'```(?:python)?\n(.*?)```', text, re.DOTALL)` and taking the
first match.  `re.findall` scans left to right; at a given start position
the pattern matches three backticks, then greedily the optional literal
`python`, then a newline, then a lazy body up to the nearest closing
triple backtick.  `matchFenceAt` reproduces the backtracking order at one
position, `findFence` the left-to-right scan. -/

/-- Characters of `l` strictly before the first occurrence of ```` ``` ````,
or `none` when no occurrence exists (the lazy `(.*?)``` ` part). -/
def upToFence : List Char → Option (List Char)
  | [] => none
  | c :: cs =>
    match dropPre [btick, btick, btick] (c :: cs) with
    | some _ => some []
    | none => (upToFence cs).map (fun g => c :: g)

/-- Try to match ``` ```(?:python)?\n(.*?)``` ``` starting exactly here;
return the group (the body). -/
def matchFenceAt (l : List Char) : Option (List Char) :=
  match dropPre [btick, btick, btick] l with
  | none => none
  | some rest =>
    -- greedy optional `python` followed by the mandatory newline,
    -- backtracking to the empty alternative
    match dropPre ['p', 'y', 't', 'h', 'o', 'n', '\n'] rest with
    | some rest2 => upToFence rest2
    | none =>
      match dropPre ['\n'] rest with
      | some rest2 => upToFence rest2
      | none => none

/-- Leftmost fenced-block match: body of the first block, if any. -/
def findFence : List Char → Option (List Char)
  | [] => none
  | c :: cs =>
    match matchFenceAt (c :: cs) with
    | some g => some g
    | none => findFence cs

/-- `line.startswith('    ') or line.startswith('\t')`. -/
def indentedLine (l : List Char) : Bool :=
  (dropPre [' ', ' ', ' ', ' '] l).isSome || (dropPre ['\t'] l).isSome

/-- The fallback loop of `extract_code` (src/utils.py lines 27–43),
with the `in_indented_block` flag made explicit. -/
def collectIndented : List (List Char) → Bool → List (List Char)
  | [], _ => []
  | line :: rest, inBlock =>
    if indentedLine line then
      line :: collectIndented rest true
    else if pyBlank line && inBlock then
      [] :: collectIndented rest true
    else if inBlock then
      []  -- `break`
    else
      collectIndented rest inBlock

/-- `extract_code(text)` from src/utils.py. -/
def extract_code (text : String) : Option String :=
  match findFence text.data with
  | some g => some (pyStrip (String.mk g))
  | none =>
    let indentedLines := collectIndented (splitNl text.data) false
    if indentedLines.isEmpty then none
    else some (String.mk (joinNl indentedLines))

/-! ## Code analyzer (src/code_analyzer.py)

`CodeAnalyzer.analyze` first computes `line_count` from the raw text, then
calls `ast.parse`.  The CPython parser lives outside the repository, so the
parse outcome is passed in explicitly: `Except.error msg` models
`ast.parse` raising `SyntaxError` with `str(e) = msg`, and `Except.ok tree`
models a successful parse producing `tree`.

The embedded AST covers the node kinds the analyzer inspects (`If`, `For`,
`While`, `Try`, `FunctionDef`, `ClassDef`, `BoolOp`, `Name` with
store/load context) plus generic statement and expression forms so that
arbitrary tree shapes are representable. -/

mutual

inductive PyStmt : Type where
  | module (body : List PyStmt)
  | ifStmt (test : PyExpr) (body orelse : List PyStmt)
  | forStmt (target iter : PyExpr) (body orelse : List PyStmt)
  | whileStmt (test : PyExpr) (body orelse : List PyStmt)
  | tryStmt (body : List PyStmt) (handlers : List (List PyStmt))
            (orelse finalbody : List PyStmt)
  | funcDef (name : String) (body : List PyStmt)
  | classDef (name : String) (body : List PyStmt)
  | assign (targets : List PyExpr) (value : PyExpr)
  | exprStmt (value : PyExpr)
  | passStmt
  deriving Repr

inductive PyExpr : Type where
  | boolOp (values : List PyExpr)
  | name (id : String) (isStore : Bool)
  | call (func : PyExpr) (args : List PyExpr)
  | binOp (left right : PyExpr)
  | constant
  deriving Repr

end

/-- A node of the tree, as seen by `ast.walk`. -/
inductive PyNode : Type where
  | stmt (s : PyStmt)
  | expr (e : PyExpr)
  deriving Repr

mutual

/-- All nodes of a statement subtree (the statement itself included).
`ast.walk` enumerates breadth-first; the analyzer only counts and filters
nodes, so this depth-first enumeration is used, which visits exactly the
same set of nodes (issue ordering is the only possible difference, and no
verified property depends on it). -/
def walkS : PyStmt → List PyNode
  | .module body => .stmt (.module body) :: walkSL body
  | .ifStmt t b e => .stmt (.ifStmt t b e) :: (walkE t ++ walkSL b ++ walkSL e)
  | .forStmt tg it b e =>
      .stmt (.forStmt tg it b e) :: (walkE tg ++ walkE it ++ walkSL b ++ walkSL e)
  | .whileStmt t b e => .stmt (.whileStmt t b e) :: (walkE t ++ walkSL b ++ walkSL e)
  | .tryStmt b hs e f =>
      .stmt (.tryStmt b hs e f) :: (walkSL b ++ walkSLL hs ++ walkSL e ++ walkSL f)
  | .funcDef n b => .stmt (.funcDef n b) :: walkSL b
  | .classDef n b => .stmt (.classDef n b) :: walkSL b
  | .assign ts v => .stmt (.assign ts v) :: (walkEL ts ++ walkE v)
  | .exprStmt v => .stmt (.exprStmt v) :: walkE v
  | .passStmt => [.stmt .passStmt]

def walkSL : List PyStmt → List PyNode
  | [] => []
  | s :: ss => walkS s ++ walkSL ss

def walkSLL : List (List PyStmt) → List PyNode
  | [] => []
  | l :: ls => walkSL l ++ walkSLL ls

def walkE : PyExpr → List PyNode
  | .boolOp vs => .expr (.boolOp vs) :: walkEL vs
  | .name i st => [.expr (.name i st)]
  | .call f args => .expr (.call f args) :: (walkE f ++ walkEL args)
  | .binOp l r => .expr (.binOp l r) :: (walkE l ++ walkE r)
  | .constant => [.expr .constant]

def walkEL : List PyExpr → List PyNode
  | [] => []
  | e :: es => walkE e ++ walkEL es

end

/-! ### Regex-based anti-pattern checks (src/code_analyzer.py lines 19–23, 74–92)

Each compiled regex is translated into an equivalent executable matcher. -/

/-- `re.search(r'except\s*:', code)`: somewhere in the text, the literal
`except`, then zero or more whitespace characters, then a colon. -/
def bareExceptAt (l : List Char) : Bool :=
  match dropPre ['e', 'x', 'c', 'e', 'p', 't'] l with
  | none => false
  | some rest =>
    match rest.dropWhile pyWhitespace with
    | ':' :: _ => true
    | _ => false

def bareExceptSearch : List Char → Bool
  | [] => false
  | c :: cs => bareExceptAt (c :: cs) || bareExceptSearch cs

/-- After the `=` of `def\s+\w+\s*\(.*=\s*(\[\]|\{\}|\(\))`: zero or more
whitespace characters (these may cross line breaks), then one of the three
empty-container literals, then — staying on that line, since `.` does not
match a newline — a closing parenthesis. -/
def mutableDefaultTail (l : List Char) : Bool :=
  let l' := l.dropWhile pyWhitespace
  let pairThen (rest : List Char) : Bool :=
    (rest.takeWhile (fun c => c ≠ '\n')).contains ')'
  match dropPre ['[', ']'] l' with
  | some rest => pairThen rest
  | none =>
    match dropPre ['(', ')'] l' with
    | some rest => pairThen rest
    | none =>
      match dropPre [Char.ofNat 123, Char.ofNat 125] l' with
      | some rest => pairThen rest
      | none => false

/-- Scan the same line (no `\n` crossing, because the regex uses `.*`) for
an `=` whose continuation matches `mutableDefaultTail`. -/
def mutableDefaultEq : List Char → Bool
  | [] => false
  | '\n' :: _ => false
  | '=' :: rest => mutableDefaultTail rest || mutableDefaultEq rest
  | _ :: rest => mutableDefaultEq rest

/-- Match `def\s+\w+\s*\(` at this exact position, then look for the
`=`-container part; the regex has no word boundary, so `def` may start in
the middle of an identifier. -/
def mutableDefaultAt (l : List Char) : Bool :=
  match dropPre ['d', 'e', 'f'] l with
  | none => false
  | some rest =>
    match rest with
    | c :: cs =>
      if pyWhitespace c then
        -- `\s+` then `\w+` then `\s*` then `(`
        let afterWs := cs.dropWhile pyWhitespace
        match afterWs with
        | d :: ds =>
          if pyWordChar d then
            let afterWord := ds.dropWhile pyWordChar
            match afterWord.dropWhile pyWhitespace with
            | '(' :: inner => mutableDefaultEq inner
            | _ => false
          else false
        | [] => false
      else false
    | [] => false

/-- `re.search(r'def\s+\w+\s*\(.*=\s*(\[\]|\{\}|\(\)).*\)', code)`. -/
def mutableDefaultSearch : List Char → Bool
  | [] => false
  | c :: cs => mutableDefaultAt (c :: cs) || mutableDefaultSearch cs

/-- One line matches `^(?!\s*(def|class)).*=.*$` exactly when it does not
begin with optional whitespace followed by `def` or `class`, and contains
an `=`.  With `re.MULTILINE`, `findall` produces one match per such line. -/
def globalVarLine (l : List Char) : Bool :=
  let afterWs := l.dropWhile pyWhitespace
  let defOrClass :=
    (dropPre ['d', 'e', 'f'] afterWs).isSome ||
    (dropPre ['c', 'l', 'a', 's', 's'] afterWs).isSome
  !defOrClass && l.contains '='

def globalVarCount (l : List Char) : Nat :=
  ((splitNl l).filter globalVarLine).length

/-! ### Naming-convention checks (src/code_analyzer.py lines 94–119) -/

/-- `re.match(r'^[a-z_][a-z0-9_]*$', s)` (full match because of the `$`). -/
def isSnakeCase (s : String) : Bool :=
  match s.data with
  | [] => false
  | c :: cs => (c.isLower || c = '_') && cs.all (fun d => d.isLower || d.isDigit || d = '_')

/-- `re.match(r'^[A-Z][a-zA-Z0-9]*$', s)`. -/
def isCamelCase (s : String) : Bool :=
  match s.data with
  | [] => false
  | c :: cs => c.isUpper && cs.all (fun d => d.isAlpha || d.isDigit)

/-- Python `str.isupper()`: at least one cased character, and every cased
character is upper case (ASCII reading). -/
def pyIsUpper (s : String) : Bool :=
  s.data.any Char.isAlpha && s.data.all (fun c => !c.isAlpha || c.isUpper)

/-- `_check_variable_naming`: one issue per offending `Name`-store,
`FunctionDef` or `ClassDef` node, in tree-walk order. -/
def namingIssues (tree : PyStmt) : List String :=
  (walkS tree).flatMap (fun n =>
    match n with
    | .expr (.name i isStore) =>
      if isStore && (!isSnakeCase i && !pyIsUpper i) then
        ["Variable \x27" ++ i ++ "\x27 does not follow snake_case convention"]
      else []
    | .stmt (.funcDef nm _) =>
      if !isSnakeCase nm then
        ["Function \x27" ++ nm ++ "\x27 does not follow snake_case convention"]
      else []
    | .stmt (.classDef nm _) =>
      if !isCamelCase nm then
        ["Class \x27" ++ nm ++ "\x27 does not follow CamelCase convention"]
      else []
    | _ => [])

/-- `_check_anti_patterns` (issues appended in source order). -/
def antiPatternIssues (code : String) : List String :=
  (if bareExceptSearch code.data then
    ["Uses bare \x27except:\x27 without specifying exceptions"] else []) ++
  (if mutableDefaultSearch code.data then
    ["Uses mutable default argument (list, dict, etc.)"] else []) ++
  (if 3 < globalVarCount code.data then
    ["Possible excessive use of global variables"] else [])

/-! ### Complexity (src/code_analyzer.py lines 121–142) -/

/-- The `for node in ast.walk(tree)` accumulation of `_calculate_complexity`:
`+1` for `If`/`For`/`While`/`Try`, `+ len(values) - 1` for `BoolOp`
(integer arithmetic, as in Python). -/
def complexityStep (acc : Int) (n : PyNode) : Int :=
  match n with
  | .stmt (.ifStmt _ _ _) => acc + 1
  | .stmt (.forStmt _ _ _ _) => acc + 1
  | .stmt (.whileStmt _ _ _) => acc + 1
  | .stmt (.tryStmt _ _ _ _) => acc + 1
  | .expr (.boolOp vs) => acc + ((vs.length : Int) - 1)
  | _ => acc

def calculateComplexity (tree : PyStmt) : Int :=
  (walkS tree).foldl complexityStep 0

/-- Is this node counted by `len([... if isinstance(node, ast.FunctionDef)])`? -/
def isFuncDefNode : PyNode → Bool
  | .stmt (.funcDef _ _) => true
  | _ => false

def isClassDefNode : PyNode → Bool
  | .stmt (.classDef _ _) => true
  | _ => false

/-! ### `analyze` itself (src/code_analyzer.py lines 25–72) -/

structure AnalysisResult where
  issues : List String
  complexity : String
  line_count : Nat
  function_count : Nat
  class_count : Nat
  deriving Repr, DecidableEq

/-- `CodeAnalyzer.analyze(code)`.  `parsed` is the outcome of
`ast.parse(code)` (see the section comment). -/
def analyze (code : String) (parsed : Except String PyStmt) : AnalysisResult :=
  let lineCount := (splitNl code.data).length
  match parsed with
  | .error msg =>
    { issues := ["Syntax error: " ++ msg]
      complexity := "Unknown"
      line_count := lineCount
      function_count := 0
      class_count := 0 }
  | .ok tree =>
    let complexity := calculateComplexity tree
    { issues := antiPatternIssues code ++ namingIssues tree
      complexity :=
        if complexity < 5 then "Low"
        else if complexity < 10 then "Medium"
        else "High"
      line_count := lineCount
      function_count := ((walkS tree).filter isFuncDefNode).length
      class_count := ((walkS tree).filter isClassDefNode).length }

/-! ## Provider API clients (src/api_clients/)

Six near-identical classes.  Construction resolves the API key from the
explicit argument and the vendor environment variables (Python truthiness:
`None` and the empty string both fall through), raising `ValueError` with a
fixed message when nothing resolves.  The runtime environment is passed in
as `env : String → Option String` (`os.getenv`). -/

inductive Provider : Type where
  | claude | openai | gemini | huggingface | grok | deepseek
  deriving Repr, DecidableEq

/-- Environment variables consulted for the key, in order
(src/api_clients/&ast;_client.py, the `if not self.api_key` block;
only Claude consults two). -/
def envVarsOf : Provider → List String
  | .claude => ["CLAUDE_API_KEY", "ANTHROPIC_API_KEY"]
  | .openai => ["OPENAI_API_KEY"]
  | .gemini => ["GEMINI_API_KEY"]
  | .huggingface => ["HUGGINGFACE_API_KEY"]
  | .grok => ["GROK_API_KEY"]
  | .deepseek => ["DEEPSEEK_API_KEY"]

/-- The `ValueError` message of each constructor, verbatim. -/
def keyErrorMsgOf : Provider → String
  | .claude => "Claude API key not found. Please provide an API key or set the CLAUDE_API_KEY environment variable in your .env file."
  | .openai => "OpenAI API key not found. Please provide an API key or set the OPENAI_API_KEY environment variable in your .env file."
  | .gemini => "Gemini API key not found. Please provide an API key or set the GEMINI_API_KEY environment variable in your .env file."
  | .huggingface => "Hugging Face API key not found. Please provide an API key or set the HUGGINGFACE_API_KEY environment variable in your .env file."
  | .grok => "Grok API key not found. Please provide an API key or set the GROK_API_KEY environment variable in your .env file."
  | .deepseek => "Deepseek API key not found. Please provide an API key or set the DEEPSEEK_API_KEY environment variable in your .env file."

def modelEnvVarOf : Provider → String
  | .claude => "CLAUDE_MODEL"
  | .openai => "OPENAI_MODEL"
  | .gemini => "GEMINI_MODEL"
  | .huggingface => "HUGGINGFACE_MODEL"
  | .grok => "GROK_MODEL"
  | .deepseek => "DEEPSEEK_MODEL"

def defaultModelOf : Provider → String
  | .claude => "claude-3-sonnet-20240229"
  | .openai => "gpt-4o"
  | .gemini => "gemini-1.5-pro-latest"
  | .huggingface => "mistralai/Mixtral-8x7B-Instruct-v0.1"
  | .grok => "grok-1"
  | .deepseek => "deepseek-coder"

/-- Fixed endpoint (for Gemini and HuggingFace this is the base URL to
which per-model path segments are appended at request time). -/
def endpointOf : Provider → String
  | .claude => "https://api.anthropic.com/v1/messages"
  | .openai => "https://api.openai.com/v1/chat/completions"
  | .gemini => "https://generativelanguage.googleapis.com/v1beta/models"
  | .huggingface => "https://api-inference.huggingface.co/models"
  | .grok => "https://api.grok.x/v1/chat/completions"
  | .deepseek => "https://api.deepseek.com/v1/chat/completions"

/-- Python truthiness of an optional string: `None` and `""` are falsy. -/
def truthy : Option String → Bool
  | none => false
  | some s => s ≠ ""

/-- The first truthy candidate, mirroring the nested
`api_key or os.getenv(...) or os.getenv(...)` / `if not self.api_key`
chain of each constructor. -/
def firstTruthy : List (Option String) → Option String
  | [] => none
  | o :: os => if truthy o then o else firstTruthy os

/-- The mutable state a successfully constructed client holds. -/
structure ClientState where
  apiKey : String
  model : String
  endpoint : String
  deriving Repr, DecidableEq

/-- The constructor of each client class: `Except.error` models the
`ValueError` raised when no key resolves; otherwise the instance state.
`os.getenv(VAR, default)` for the model keeps a set-but-empty variable,
unlike the truthiness test used for the key. -/
def clientInit (p : Provider) (api_key : Option String)
    (env : String → Option String) : Except String ClientState :=
  match firstTruthy (api_key :: (envVarsOf p).map env) with
  | none => .error (keyErrorMsgOf p)
  | some key =>
    .ok { apiKey := key
          model := (env (modelEnvVarOf p)).getD (defaultModelOf p)
          endpoint := endpointOf p }

/-- `set_model`: replaces the model identifier, no validation. -/
def set_model (st : ClientState) (model_name : String) : ClientState :=
  { st with model := model_name }

/-- `create_api_client` (src/api_clients/__init__.py lines 13–39). -/
def create_api_client (provider : String) (api_key : Option String)
    (env : String → Option String) : Except String (Provider × ClientState) :=
  let p := (pyLower provider)
  if p = "claude" ∨ p = "anthropic" then
    (clientInit .claude api_key env).map (fun st => (.claude, st))
  else if p = "openai" then
    (clientInit .openai api_key env).map (fun st => (.openai, st))
  else if p = "gemini" ∨ p = "google" then
    (clientInit .gemini api_key env).map (fun st => (.gemini, st))
  else if p = "huggingface" then
    (clientInit .huggingface api_key env).map (fun st => (.huggingface, st))
  else if p = "grok" then
    (clientInit .grok api_key env).map (fun st => (.grok, st))
  else if p = "deepseek" then
    (clientInit .deepseek api_key env).map (fun st => (.deepseek, st))
  else
    .error ("Unsupported provider: " ++ p)

/-! ### The generation calls and their uniform error contract

Each `generate_response` / `generate_response_with_history` wraps its whole
body in `try`/`except Exception`.  The body performs exactly one HTTP call;
its outcome is an explicit argument:

  * `raises msg` — `requests.post` itself raised, `str(e) = msg`;
  * `resp status body text` — a response arrived with the given status
    code, JSON-decode outcome and raw text.

`raise_for_status` raises `HTTPError` exactly for status codes 400–599.
The JSON body is a value of the `Json` type below; field/index extraction
failures raise `KeyError`/`IndexError`/`TypeError` as in Python.  The
Python functions are annotated `-> str` but nothing coerces the extracted
JSON value, so the embedded result type is `Json` (a `Json.str` in every
error path). -/

inductive Json : Type where
  | str (s : String)
  | num (n : Int)
  | bool (b : Bool)
  | null
  | arr (xs : List Json)
  | obj (fields : List (String × Json))
  deriving Repr

/-- Exceptions that the `try` body can raise. -/
inductive PyExc : Type where
  | requestError (msg : String)      -- raised by `requests.post`
  | httpError (status : Nat)         -- raised by `raise_for_status`
  | jsonError (msg : String)         -- raised by `response.json()`
  | keyError (key : String)          -- `result[k]` on a dict without `k`
  | indexError                       -- `result[i]` past the end of a list
  | typeError (msg : String)         -- subscripting a non-container
  | attributeError (msg : String)    -- `.get` on a non-dict
  deriving Repr, DecidableEq

/-- `str(e)` for each exception (the shapes CPython/requests produce;
only its presence inside the returned error string is verified). -/
def excMsg : PyExc → String
  | .requestError m => m
  | .httpError st => toString st ++ " Error for url"
  | .jsonError m => m
  | .keyError k => "\x27" ++ k ++ "\x27"
  | .indexError => "list index out of range"
  | .typeError m => m
  | .attributeError m => m

/-- Dictionary lookup `j[k]`. -/
def Json.getKey (j : Json) (k : String) : Except PyExc Json :=
  match j with
  | .obj fields =>
    match fields.lookup k with
    | some v => .ok v
    | none => .error (.keyError k)
  | _ => .error (.typeError "object is not subscriptable")

/-- List indexing `j[i]`. -/
def Json.getIdx (j : Json) (i : Nat) : Except PyExc Json :=
  match j with
  | .arr xs =>
    match xs[i]? with
    | some v => .ok v
    | none => .error .indexError
  | _ => .error (.typeError "object is not subscriptable")

/-- Response-text extraction per provider:
Claude `result["content"][0]["text"]`;
OpenAI/Grok/Deepseek `result["choices"][0]["message"]["content"]`;
Gemini `result["candidates"][0]["content"]["parts"][0]["text"]`;
HuggingFace `result[0].get("generated_text", "")` when the body is a
nonempty list (with `AttributeError` when its head is not a dict), and the
fixed string `"No response generated from the model."` otherwise. -/
def extractText (p : Provider) (result : Json) : Except PyExc Json :=
  match p with
  | .claude => do
    let c ← result.getKey "content"
    let e0 ← c.getIdx 0
    e0.getKey "text"
  | .openai | .grok | .deepseek => do
    let c ← result.getKey "choices"
    let e0 ← c.getIdx 0
    let m ← e0.getKey "message"
    m.getKey "content"
  | .gemini => do
    let c ← result.getKey "candidates"
    let e0 ← c.getIdx 0
    let ct ← e0.getKey "content"
    let ps ← ct.getKey "parts"
    let p0 ← ps.getIdx 0
    p0.getKey "text"
  | .huggingface =>
    match result with
    | .arr (x :: _) =>
      match x with
      | .obj fields => .ok ((fields.lookup "generated_text").getD (.str ""))
      | _ => .error (.attributeError "object has no attribute \x27get\x27")
    | _ => .ok (.str "No response generated from the model.")

/-- Vendor name as it appears in the error strings. -/
def errNameOf : Provider → String
  | .claude => "Claude"
  | .openai => "OpenAI"
  | .gemini => "Gemini"
  | .huggingface => "Hugging Face"
  | .grok => "Grok"
  | .deepseek => "Deepseek"

/-- The string built by every `except` block:
`f"I encountered an error: Error when calling {name} API: {str(e)}. ..."`. -/
def errorReply (p : Provider) (e : PyExc) : String :=
  "I encountered an error: Error when calling " ++ errNameOf p ++ " API: "
    ++ excMsg e ++ ". Please check your API key and network connection."

/-- Outcome of the single `requests.post` call inside the `try` body. -/
inductive CallOutcome : Type where
  | raises (msg : String)
  | resp (status : Nat) (body : Except String Json) (text : String)

/-- The `try` body shared by all twelve generation methods: post (may
raise), `raise_for_status` (raises for 400–599), `response.json()` (may
raise), then the vendor-specific extraction. -/
def tryBody (p : Provider) (oc : CallOutcome) : Except PyExc Json :=
  match oc with
  | .raises msg => .error (.requestError msg)
  | .resp status body _ =>
    if 400 ≤ status ∧ status ≤ 599 then .error (.httpError status)
    else
      match body with
      | .error m => .error (.jsonError m)
      | .ok j => extractText p j

/-- The `try`/`except` wrapper: every exception of the body becomes the
error string; nothing propagates. -/
def handleCall (p : Provider) (oc : CallOutcome) : Json :=
  match tryBody p oc with
  | .ok v => v
  | .error e => .str (errorReply p e)

/-- `generate_response(prompt, system_prompt, max_tokens)`.  The prompt
arguments shape only the outgoing request (elided here — no verified
property mentions it); the returned value depends on the call outcome. -/
def generate_response (p : Provider) (_prompt : String)
    (_system_prompt : Option String) (_max_tokens : Nat)
    (oc : CallOutcome) : Json :=
  handleCall p oc

/-- `generate_response_with_history(messages, system_prompt, max_tokens)`:
identical response handling; only the request assembly differs. -/
def generate_response_with_history (p : Provider)
    (_messages : List (String × String)) (_system_prompt : Option String)
    (_max_tokens : Nat) (oc : CallOutcome) : Json :=
  handleCall p oc

/-- `format_code` (src/utils.py lines 48–58). -/
def format_code (code : String) : String :=
  "```python\n" ++ code ++ "\n```"

/-! ## Assistant orchestrator (src/assistant.py)

`ProgrammingAssistant` holds the conversation history and delegates to its
API client.  The client is polymorphic (`BaseAPIClient`), so it is
embedded as a record of response functions; per the uniform client
contract, each returns a string.  `pyParse` is the `ast.parse` oracle used
by the embedded `CodeAnalyzer` (see the analyzer section). -/

structure Message where
  role : String
  content : String
  deriving Repr, DecidableEq

/-- The capability set of `BaseAPIClient` as the orchestrator uses it
(`max_tokens` is always left at its default and never read by the
orchestrator, so it is not part of the record). -/
structure APIClient where
  genResp : String → Option String → String
  genRespWithHistory : List Message → Option String → String

/-- `self.task_templates` (src/assistant.py lines 36–43), in insertion
order, which Python dictionaries preserve for the iteration in
`_identify_task_category`. -/
def task_templates : List (String × String) :=
  [("file_operations", "Working with files (read/write/modify)"),
   ("data_processing", "Processing data (filtering/transforming/analyzing)"),
   ("web_interaction", "Web interactions (scraping/API calls/requests)"),
   ("ui_creation", "Creating user interfaces"),
   ("automation", "Automating tasks (scheduled jobs/repeated actions)"),
   ("calculation", "Performing calculations or data analysis")]

/-- `task_indicators` (src/assistant.py lines 161–166). -/
def task_indicators : List String :=
  ["create a program", "write code", "make a script",
   "i need a program", "develop a", "build a",
   "automate", "how do i code", "how to program",
   "i want to", "can you make", "help me create"]

/-- `_is_task_description` (src/assistant.py lines 150–179).  Both the
`if code:`-style truthiness tests use `truthy`, because `extract_code` can
return an empty string (which Python treats as "no code"). -/
def is_task_description (query : String) : Bool :=
  let queryLower := (pyLower query)
  task_indicators.any (fun ind => strHasSub ind queryLower) ||
    (8 < wordCount query.data && !truthy (extract_code query))

def systemPromptForProgramming : String :=
  "\n        You are an AI Programming Assistant designed to help with Python programming tasks.\n        \n        Guidelines for your responses:\n        - Provide clear, concise explanations suitable for beginners\n        - Include well-commented code examples\n        - Explain programming concepts without assuming prior knowledge\n        - Follow Python best practices in all code you provide\n        - When appropriate, suggest resources for further learning\n        - Format code blocks properly using markdown\n        "

def systemPromptForCodeReview : String :=
  "\n        You are an AI Programming Assistant specializing in Python code review.\n        \n        Guidelines for your code reviews:\n        - First explain what the code does at a high level\n        - Identify potential bugs, edge cases, or inefficiencies\n        - Suggest improvements for readability and maintainability\n        - Provide an improved version with explanatory comments\n        - Highlight good practices that are already present in the code\n        - Use a constructive and educational tone throughout\n        "

def systemPromptForCodeGeneration : String :=
  "\n        You are an AI Programming Assistant specializing in Python code generation.\n        \n        Guidelines for generating code:\n        - Write clean, efficient, and well-commented Python code\n        - Follow PEP 8 style guidelines\n        - Include docstrings for functions and classes\n        - Provide comprehensive error handling\n        - Include example usage to demonstrate the code\n        - Explain your implementation choices\n        - Consider edge cases and potential issues\n        "

def systemPromptForTaskConversion : String :=
  "\n        You are an AI Programming Assistant specializing in converting natural language task \n        descriptions into working Python code for users with minimal programming knowledge.\n        \n        Guidelines:\n        - Write extremely well-commented code with explanations of EVERY line\n        - Explain programming concepts in simple language assuming NO prior knowledge\n        - Structure code in small, manageable chunks with clear purpose\n        - Include simple error handling with explanations of what could go wrong\n        - Provide complete, ready-to-run code that accomplishes the task\n        - Add detailed instructions on how to run the code\n        - Include examples of how the user might modify the code for similar tasks\n        - Focus on practical solutions rather than programming theory\n        - Use simple variable names that clearly indicate their purpose\n        "

/-- The f-string prompt of `_identify_task_category`. -/
def categoryPrompt (task_description : String) : String :=
  "\n        Identify which ONE category best matches this task description:\n        \n        "
    ++ task_description ++
  "\n        \n        Categories:\n        - file_operations: Working with files (read/write/modify)\n        - data_processing: Processing data (filtering/transforming/analyzing)\n        - web_interaction: Web interactions (scraping/API calls/requests)\n        - ui_creation: Creating user interfaces\n        - automation: Automating tasks (scheduled jobs/repeated actions)\n        - calculation: Performing calculations or data analysis\n        \n        Return ONLY the category name, nothing else.\n        "

/-- `_identify_task_category` (src/assistant.py lines 218–254). -/
def identify_task_category (client : APIClient) (task_description : String) : String :=
  let response := client.genResp (categoryPrompt task_description) none
  let responseLower := (pyLower response)
  match task_templates.find? (fun kv => strHasSub kv.1 responseLower) with
  | some kv => kv.2
  | none => "General programming task"

/-- The f-string prompt of `convert_task_to_code`. -/
def taskConversionPrompt (task_description task_category : String) : String :=
  "\n        I need to convert this task description into working Python code.\n        I have very little programming knowledge, so the code should be well-explained.\n        \n        TASK DESCRIPTION:\n        "
    ++ task_description ++
  "\n        \n        IDENTIFIED CATEGORY:\n        "
    ++ task_category ++
  "\n        \n        Please:\n        1. Explain what you\x27ll create in simple terms\n        2. Provide the complete Python code with detailed comments explaining each part\n        3. Include step-by-step instructions on how to run the code\n        4. Add simple examples of how to use/modify the code for similar tasks\n        "

/-- `convert_task_to_code` (src/assistant.py lines 181–216). -/
def convert_task_to_code (client : APIClient) (task_description : String) : String :=
  let task_category := identify_task_category client task_description
  client.genResp (taskConversionPrompt task_description task_category)
    (some systemPromptForTaskConversion)

/-- The f-string prompt of `ProgrammingAssistant.analyze_code`, embedding
the analyzer output (`', '.join(issues)` with the `'None detected'`
fallback for an empty, hence falsy, list). -/
def analyzeCodePrompt (code : String) (ar : AnalysisResult) : String :=
  "\n        Please analyze this Python code and provide feedback:\n        \n        ```python\n        "
    ++ code ++
  "\n        ```\n        \n        Initial analysis detected:\n        - Potential issues: "
    ++ (if ar.issues.isEmpty then "None detected" else String.intercalate ", " ar.issues) ++
  "\n        - Code complexity: "
    ++ ar.complexity ++
  "\n        \n        Please provide:\n        1. An explanation of what this code does\n        2. Suggestions for improvements (readability, efficiency, best practices)\n        3. Any potential bugs or edge cases\n        4. Improved version with explanatory comments\n        "

/-- `ProgrammingAssistant.analyze_code` (src/assistant.py lines 82–117). -/
def assistant_analyze_code (pyParse : String → Except String PyStmt)
    (client : APIClient) (code : String) : String :=
  let analysisResults := analyze code (pyParse code)
  client.genResp (analyzeCodePrompt code analysisResults)
    (some systemPromptForCodeReview)

/-- `ProgrammingAssistant.generate_code` (src/assistant.py lines 119–144). -/
def assistant_generate_code (client : APIClient) (specification : String) : String :=
  client.genResp
    ("\n        Please write Python code based on the following specification:\n        \n        "
      ++ specification ++
      "\n        \n        The code should be:\n        1. Well-commented for a beginner to understand\n        2. Follow Python best practices\n        3. Include example usage\n        4. Be efficient and handle edge cases\n        ")
    (some systemPromptForCodeGeneration)

/-- `process_query` (src/assistant.py lines 45–80): append the user turn,
route, append the assistant turn, return the reply together with the new
history. -/
def process_query (pyParse : String → Except String PyStmt)
    (client : APIClient) (history : List Message) (query : String) :
    String × List Message :=
  let historyWithUser := history ++ [{ role := "user", content := query }]
  let response :=
    if is_task_description query then
      convert_task_to_code client query
    else if strHasSub "analyze this code" (pyLower query) ||
            strHasSub "review this code" (pyLower query) then
      let code := extract_code query
      if truthy code then
        assistant_analyze_code pyParse client (code.getD "")
      else
        "I don\x27t see any code to analyze. Please share your code."
    else
      client.genRespWithHistory historyWithUser (some systemPromptForProgramming)
  (response, historyWithUser ++ [{ role := "assistant", content := response }])

/-- `clear_conversation_history`. -/
def clear_conversation_history (_history : List Message) : List Message :=
  []

/-! ### Module-level name binding of src/assistant.py (for the
constructor defect)

The module imports exactly `os`, the four `typing` names,
`create_api_client`, `CodeAnalyzer`, `format_code` and `extract_code`,
and defines `ProgrammingAssistant`; the name `ClaudeAPIClient` used on
its first constructor line is never bound. -/

def assistantModuleBindings : List String :=
  ["os", "Dict", "List", "Optional", "Tuple",
   "create_api_client", "CodeAnalyzer", "format_code", "extract_code",
   "ProgrammingAssistant"]

inductive InitError : Type where
  | nameError (name : String)     -- unresolved global
  | valueError (msg : String)     -- raised by a client constructor
  deriving Repr, DecidableEq

/-- `ProgrammingAssistant.__init__` (src/assistant.py lines 19–43).  Its
first statement evaluates the global name `ClaudeAPIClient`; resolving a
global that is neither bound in the module nor a builtin raises
`NameError` before anything else runs.  Were the name bound to the class
in `src/api_clients/claude_client.py`, the call would be `clientInit`. -/
def programmingAssistantInit (api_key : Option String)
    (env : String → Option String) : Except InitError ClientState :=
  if "ClaudeAPIClient" ∈ assistantModuleBindings then
    match clientInit .claude api_key env with
    | .ok st => .ok st
    | .error m => .error (.valueError m)
  else
    .error (.nameError "ClaudeAPIClient")

/-! ## Shared lemmas -/

theorem splitNl_ne_nil : ∀ l : List Char, splitNl l ≠ []
  | [] => by simp [splitNl]
  | c :: cs => by
    by_cases h : c = '\n'
    · simp [splitNl, h]
    · simp only [splitNl, h, if_false]
      cases hs : splitNl cs with
      | nil => simp
      | cons a as => simp

/-- `len(text.split('\n')) = text.count('\n') + 1`. -/
theorem splitNl_length : ∀ l : List Char, (splitNl l).length = l.count '\n' + 1
  | [] => by simp [splitNl]
  | c :: cs => by
    by_cases h : c = '\n'
    · subst h
      simp [splitNl, splitNl_length cs, List.count_cons]
    · simp only [splitNl, h, if_false]
      cases hs : splitNl cs with
      | nil => exact absurd hs (splitNl_ne_nil cs)
      | cons a as =>
        have := splitNl_length cs
        rw [hs] at this
        simp only [List.length_cons] at this ⊢
        simp [List.count_cons, h, this]

/-- Dropping a list off itself with a tail. -/
theorem dropPre_append : ∀ xs ys : List Char, dropPre xs (xs ++ ys) = some ys
  | [], _ => rfl
  | x :: xs, ys => by simp [dropPre, dropPre_append xs ys]

/-- A pattern is found inside any text that contains it. -/
theorem hasSub_middle : ∀ (xs pat ys : List Char), hasSub pat (xs ++ (pat ++ ys)) = true
  | [], pat, ys => by
    cases h : pat ++ ys with
    | nil =>
      have hp : pat = [] := by
        cases pat with
        | nil => rfl
        | cons a as => simp at h
      simp [hasSub, hp, dropPre]
    | cons c cs =>
      simp only [List.nil_append, hasSub, h]
      rw [← h, dropPre_append]
      simp
  | x :: xs, pat, ys => by
    simp only [List.cons_append, hasSub, List.append_eq]
    rw [hasSub_middle xs pat ys]
    simp

/-- String version: `strHasSub pat (a ++ pat ++ b) = true`. -/
theorem strHasSub_middle (a pat b : String) : strHasSub pat (a ++ (pat ++ b)) = true := by
  have h1 : (a ++ (pat ++ b)).data = a.data ++ (pat.data ++ b.data) := by
    simp [String.data_append]
  rw [strHasSub, h1]
  exact hasSub_middle a.data pat.data b.data

/-! ## C10 — `line_count` is the newline-segment count of the raw text -/

/-- **C10.** For every input string and every parse outcome (`analyze`
computes `line_count` from the raw text before the parse step), the
returned `line_count` equals the number of newline-separated segments of
the input — the number of `'\n'` characters plus one, hence at least 1. -/
theorem C10_line_count (code : String) (parsed : Except String PyStmt) :
    (analyze code parsed).line_count = code.data.count '\n' + 1 ∧
      1 ≤ (analyze code parsed).line_count := by
  have h : (analyze code parsed).line_count = (splitNl code.data).length := by
    cases parsed <;> rfl
  rw [h, splitNl_length]
  omega

/-! ## C2 — behaviour of `analyze` on a parse failure -/

/-- **C2 (amended).** For every syntactically invalid snippet, `analyze`
short-circuits: the result has exactly one issue, the string
`"Syntax error: <parser message>"` (capital `S`), `complexity` is
`"Unknown"`, `function_count` and `class_count` are at their default 0 —
but `line_count` is not 0: it is already the newline-segment count of the
raw input (hence at least 1), computed before the parse step. -/
theorem C2_syntax_error_short_circuit (code : String) (msg : String) :
    analyze code (.error msg) =
      { issues := ["Syntax error: " ++ msg]
        complexity := "Unknown"
        line_count := code.data.count '\n' + 1
        function_count := 0
        class_count := 0 } := by
  simp only [analyze, splitNl_length]

/-- **C2 counterexample.** The claim as stated is false: on the invalid
snippet `"x = ("` (one line), `line_count` is 1, not the claimed default
0; and the single issue says `"Syntax error: ..."`, which does not contain
the claimed (lower-case) text `"syntax error"`. -/
theorem C2_counterexample :
    (analyze "x = (" (.error "unexpected EOF while parsing")).line_count = 1 ∧
    (analyze "x = (" (.error "unexpected EOF while parsing")).line_count ≠ 0 ∧
    (analyze "x = (" (.error "unexpected EOF while parsing")).issues =
      ["Syntax error: unexpected EOF while parsing"] ∧
    strHasSub "syntax error" "Syntax error: unexpected EOF while parsing" = false := by
  refine ⟨rfl, by decide, rfl, by decide⟩

/-! ## C3 — the orchestrator constructor always raises `NameError` -/

/-- **C3.** For every `api_key` argument (including `None`) and every
environment, constructing `ProgrammingAssistant` fails with a name
resolution error on `ClaudeAPIClient`: the module only imports
`create_api_client`, never `ClaudeAPIClient`, so the first statement of
`__init__` raises `NameError` and no orchestrator instance is ever
constructed. -/
theorem C3_init_name_error (api_key : Option String)
    (env : String → Option String) :
    programmingAssistantInit api_key env = .error (.nameError "ClaudeAPIClient") := by
  simp [programmingAssistantInit, assistantModuleBindings]

/-! ## C4 — `process_query` appends exactly the two sides of the exchange -/

/-- **C4.** Every call to `process_query` appends exactly two entries to
the conversation history — first the user message, then the assistant
reply — leaves all previously appended entries unchanged, and returns
the reply; this holds on every routing branch (for every parse oracle,
client behaviour, prior history and query). -/
theorem C4_process_query_history (pyParse : String → Except String PyStmt)
    (client : APIClient) (history : List Message) (query : String) :
    (process_query pyParse client history query).2 =
      history ++
        [{ role := "user", content := query },
         { role := "assistant",
           content := (process_query pyParse client history query).1 }] := by
  simp [process_query]

/-! ## C7 — the complexity score and its bucketing -/

/-- Is a node one of the branching/looping/exception nodes counted by the
complexity score (spec-side)? -/
def isBranchNode : PyNode → Bool
  | .stmt (.ifStmt _ _ _) => true
  | .stmt (.forStmt _ _ _ _) => true
  | .stmt (.whileStmt _ _ _) => true
  | .stmt (.tryStmt _ _ _ _) => true
  | _ => false

/-- The boolean-operation contribution of one node (spec-side):
`operand count − 1` for a `BoolOp`, 0 otherwise. -/
def boolOpExtraOf : PyNode → Int
  | .expr (.boolOp vs) => (vs.length : Int) - 1
  | _ => 0

/-- Number of branching nodes of the full tree (spec-side). -/
def branchCount (tree : PyStmt) : Nat :=
  ((walkS tree).filter isBranchNode).length

/-- Total boolean-operation contribution of the full tree (spec-side). -/
def boolOpExtra (tree : PyStmt) : Int :=
  ((walkS tree).map boolOpExtraOf).sum

theorem complexityStep_eq (acc : Int) (n : PyNode) :
    complexityStep acc n = acc + (if isBranchNode n then 1 else 0) + boolOpExtraOf n := by
  cases n with
  | stmt s => cases s <;> simp [complexityStep, isBranchNode, boolOpExtraOf]
  | expr e => cases e <;> simp [complexityStep, isBranchNode, boolOpExtraOf]

theorem foldl_complexityStep :
    ∀ (l : List PyNode) (acc : Int),
      l.foldl complexityStep acc =
        acc + ((l.filter isBranchNode).length : Int) + (l.map boolOpExtraOf).sum
  | [], acc => by simp
  | n :: l, acc => by
    simp only [List.foldl_cons, foldl_complexityStep l, complexityStep_eq,
      List.filter_cons, List.map_cons, List.sum_cons]
    by_cases h : isBranchNode n <;> simp [h] <;> ring

/-- The walked complexity accumulation equals branch count plus boolean
extras. -/
theorem calculateComplexity_eq (tree : PyStmt) :
    calculateComplexity tree = (branchCount tree : Int) + boolOpExtra tree := by
  rw [calculateComplexity, foldl_complexityStep, branchCount, boolOpExtra]
  ring

/-- **C7.** For every syntactically valid snippet, the complexity bucket
reported by `analyze` is determined by the score
`(number of if/for/while/try nodes) + Σ over and/or chains (operands − 1)`:
`"Low"` below 5, `"Medium"` from 5 to 9, `"High"` from 10 (so 4 branch
nodes with no chains give Low, 5 give Medium, 10 give High). -/
theorem C7_complexity_bucket (code : String) (tree : PyStmt) :
    (analyze code (.ok tree)).complexity =
      (if (branchCount tree : Int) + boolOpExtra tree < 5 then "Low"
       else if (branchCount tree : Int) + boolOpExtra tree < 10 then "Medium"
       else "High") := by
  simp only [analyze, calculateComplexity_eq]

/-! ## C8 — API-key resolution at construction -/

/-- A candidate resolves the key when it is present and non-empty
(Python truthiness), spec-side. -/
def truthyVal : Option String → Option String
  | none => none
  | some s => if s = "" then none else some s

/-- Spec-side key resolution: the explicit argument first, then the
vendor environment variables in their order, first truthy match wins. -/
def resolveKeySpec (p : Provider) (api_key : Option String)
    (env : String → Option String) : Option String :=
  (api_key :: (envVarsOf p).map env).findSome? truthyVal

theorem firstTruthy_eq_findSome :
    ∀ l : List (Option String), firstTruthy l = l.findSome? truthyVal
  | [] => rfl
  | o :: os => by
    cases o with
    | none => simp [firstTruthy, truthy, truthyVal, List.findSome?, firstTruthy_eq_findSome os]
    | some s =>
      by_cases h : s = "" <;>
        simp [firstTruthy, truthy, truthyVal, List.findSome?, h, firstTruthy_eq_findSome os]

theorem firstTruthy_some_ne_empty :
    ∀ (l : List (Option String)) (k : String), firstTruthy l = some k → k ≠ ""
  | [], k => by simp [firstTruthy]
  | o :: os, k => by
    cases o with
    | none => simpa [firstTruthy, truthy] using firstTruthy_some_ne_empty os k
    | some s =>
      by_cases h : s = ""
      · simpa [firstTruthy, truthy, h] using firstTruthy_some_ne_empty os k
      · intro hk
        simp only [firstTruthy, truthy, h] at hk
        simp only [if_pos (by simp [h] : (decide ¬s = "") = true)] at hk
        cases hk
        exact h

/-- **C8.** For every provider, construction resolves the API key by
priority — explicit argument first, then the vendor environment
variable(s) in order (Claude: `CLAUDE_API_KEY` then `ANTHROPIC_API_KEY`),
first truthy match wins. When nothing resolves, construction fails with
the fixed configuration error that names the expected environment
variable; when it succeeds, the instance holds exactly the resolved key,
which is never empty — never a half-initialized client. -/
theorem C8_key_resolution (p : Provider) (api_key : Option String)
    (env : String → Option String) :
    match clientInit p api_key env with
    | .ok st => st.apiKey ≠ "" ∧ some st.apiKey = resolveKeySpec p api_key env
    | .error m =>
        resolveKeySpec p api_key env = none ∧ m = keyErrorMsgOf p ∧
          strHasSub ((envVarsOf p).headD "") m = true := by
  have hspec : resolveKeySpec p api_key env =
      firstTruthy (api_key :: (envVarsOf p).map env) :=
    (firstTruthy_eq_findSome _).symm
  cases h : firstTruthy (api_key :: (envVarsOf p).map env) with
  | none =>
    have hc : clientInit p api_key env = .error (keyErrorMsgOf p) := by
      unfold clientInit
      rw [h]
    rw [hc]
    exact ⟨hspec.trans h, rfl, by cases p <;> decide⟩
  | some k =>
    have hc : clientInit p api_key env =
        .ok { apiKey := k
              model := (env (modelEnvVarOf p)).getD (defaultModelOf p)
              endpoint := endpointOf p } := by
      unfold clientInit
      rw [h]
    rw [hc]
    exact ⟨firstTruthy_some_ne_empty _ k h, by rw [hspec, h]⟩

/-! ## C9 — the factory's provider-name mapping -/

theorem strHasSub_tail (a pat : String) : strHasSub pat (a ++ pat) = true := by
  have h1 : (a ++ pat).data = a.data ++ (pat.data ++ []) := by
    simp [String.data_append]
  rw [strHasSub, h1]
  exact hasSub_middle a.data pat.data []

/-- **C9.** `create_api_client` lower-cases the provider name; `claude`
and `anthropic` both construct the Claude variant (so those two calls are
interchangeable), `gemini` and `google` the Gemini variant, and the
remaining four names map 1:1; any other name yields the configuration
error `"Unsupported provider: <lower-cased name>"`, which names the
invalid value — no default provider is substituted. -/
theorem C9_factory_mapping (s : String) (key : Option String)
    (env : String → Option String) :
    create_api_client "anthropic" key env = create_api_client "claude" key env ∧
    create_api_client "google" key env = create_api_client "gemini" key env ∧
    (if (pyLower s) = "claude" ∨ (pyLower s) = "anthropic" then
      create_api_client s key env =
        (clientInit .claude key env).map (fun st => (Provider.claude, st))
    else if (pyLower s) = "openai" then
      create_api_client s key env =
        (clientInit .openai key env).map (fun st => (Provider.openai, st))
    else if (pyLower s) = "gemini" ∨ (pyLower s) = "google" then
      create_api_client s key env =
        (clientInit .gemini key env).map (fun st => (Provider.gemini, st))
    else if (pyLower s) = "huggingface" then
      create_api_client s key env =
        (clientInit .huggingface key env).map (fun st => (Provider.huggingface, st))
    else if (pyLower s) = "grok" then
      create_api_client s key env =
        (clientInit .grok key env).map (fun st => (Provider.grok, st))
    else if (pyLower s) = "deepseek" then
      create_api_client s key env =
        (clientInit .deepseek key env).map (fun st => (Provider.deepseek, st))
    else
      create_api_client s key env = .error ("Unsupported provider: " ++ (pyLower s)) ∧
        strHasSub (pyLower s) ("Unsupported provider: " ++ (pyLower s)) = true) := by
  refine ⟨?_, ?_, ?_⟩
  · simp only [create_api_client]
    rw [if_pos (Or.inr (by decide : pyLower "anthropic" = "anthropic")),
      if_pos (Or.inl (by decide : pyLower "claude" = "claude"))]
  · simp only [create_api_client]
    rw [if_neg (by decide :
          ¬(pyLower "google" = "claude" ∨ pyLower "google" = "anthropic")),
      if_neg (by decide : ¬pyLower "google" = "openai"),
      if_pos (Or.inr (by decide : pyLower "google" = "google")),
      if_neg (by decide :
          ¬(pyLower "gemini" = "claude" ∨ pyLower "gemini" = "anthropic")),
      if_neg (by decide : ¬pyLower "gemini" = "openai"),
      if_pos (Or.inl (by decide : pyLower "gemini" = "gemini"))]
  · simp only [create_api_client]
    split_ifs <;> first
      | rfl
      | exact ⟨rfl, strHasSub_tail "Unsupported provider: " (pyLower s)⟩

/-! ## C1 — the uniform string-error contract of the generation calls -/

/-- `s.startswith(pre)`. -/
def strStarts (pre s : String) : Bool :=
  (dropPre pre.data s.data).isSome

theorem strHasSub_self (s : String) : strHasSub s s = true := by
  have h := hasSub_middle [] s.data []
  simpa [strHasSub] using h

/-- Every error reply begins with the error marker. -/
theorem errorReply_starts (p : Provider) (e : PyExc) :
    strStarts "I encountered an error: " (errorReply p e) = true := by
  have hsplit : ("I encountered an error: Error when calling " : String).data =
      ("I encountered an error: " : String).data ++
        ("Error when calling " : String).data := rfl
  have h : (errorReply p e).data =
      ("I encountered an error: " : String).data ++
        (("Error when calling " : String).data ++ (errNameOf p).data ++
          (" API: " : String).data ++ (excMsg e).data ++
          (". Please check your API key and network connection." : String).data) := by
    simp [errorReply, String.data_append, hsplit]
  rw [strStarts, h, dropPre_append]
  rfl

/-- Every error reply contains the underlying exception's message. -/
theorem errorReply_contains (p : Provider) (e : PyExc) :
    strHasSub (excMsg e) (errorReply p e) = true := by
  have h : (errorReply p e).data =
      (("I encountered an error: Error when calling " : String).data ++
        (errNameOf p).data ++ (" API: " : String).data) ++
        ((excMsg e).data ++
          (". Please check your API key and network connection." : String).data) := by
    simp [errorReply, String.data_append]
  rw [strHasSub, h]
  exact hasSub_middle _ _ _

/-- **C1 (amended).** For every provider and both generation methods: the
call always returns a value and never raises; whenever the `try` body
raises — the HTTP call raises, `raise_for_status` fires on a 4xx/5xx
status, or extracting the expected fields raises — the returned value is
the error string, which begins with the marker
`"I encountered an error: "` and contains the underlying exception's
message; a raising HTTP call and a 4xx/5xx status always take that error
path.  (HuggingFace's missing-fields case returns a fixed notice instead
— see the counterexample.) -/
theorem C1_error_contract (p : Provider) (prompt : String)
    (system_prompt : Option String) (max_tokens : Nat)
    (messages : List (String × String)) (oc : CallOutcome) :
    generate_response p prompt system_prompt max_tokens oc = handleCall p oc ∧
    generate_response_with_history p messages system_prompt max_tokens oc =
      handleCall p oc ∧
    (match tryBody p oc with
     | .error e =>
        handleCall p oc = .str (errorReply p e) ∧
        strStarts "I encountered an error: " (errorReply p e) = true ∧
        strHasSub (excMsg e) (errorReply p e) = true
     | .ok v => handleCall p oc = v) ∧
    (match oc with
     | .raises m => ∃ e, tryBody p oc = .error e ∧ strHasSub m (excMsg e) = true
     | .resp status _ _ =>
        if 400 ≤ status ∧ status ≤ 599 then ∃ e, tryBody p oc = .error e
        else True) := by
  refine ⟨rfl, rfl, ?_, ?_⟩
  · cases h : tryBody p oc with
    | error e =>
      refine ⟨?_, errorReply_starts p e, errorReply_contains p e⟩
      rw [handleCall, h]
    | ok v =>
      rw [handleCall, h]
  · cases oc with
    | raises m => exact ⟨.requestError m, rfl, strHasSub_self m⟩
    | resp status body text =>
      show if 400 ≤ status ∧ status ≤ 599 then
          ∃ e, tryBody p (.resp status body text) = Except.error e
        else True
      by_cases h : 400 ≤ status ∧ status ≤ 599
      · rw [if_pos h]
        refine ⟨.httpError status, ?_⟩
        show (if 400 ≤ status ∧ status ≤ 599 then
            Except.error (PyExc.httpError status)
          else
            match body with
            | Except.error m => Except.error (PyExc.jsonError m)
            | Except.ok j => extractText p j) =
          Except.error (PyExc.httpError status)
        rw [if_pos h]
      · rw [if_neg h]
        trivial

/-- **C1 counterexample.** The claim as stated is false: for the
HuggingFace client, a 200 response whose JSON body is a dictionary (so
the expected fields are missing) makes `generate_response` return the
fixed notice `"No response generated from the model."`, which does not
begin with an error marker and carries no exception message. -/
theorem C1_counterexample :
    generate_response .huggingface "p" none 4000
        (.resp 200 (.ok (Json.obj [])) "") =
      .str "No response generated from the model." ∧
    strStarts "I encountered an error" "No response generated from the model." =
      false := by
  exact ⟨rfl, by decide⟩

/-! ## C5 — the fenced-block extraction path -/

theorem matchFenceAt_none_of_head_ne {c : Char} (l : List Char) (hc : c ≠ btick) :
    matchFenceAt (c :: l) = none := by
  have h3 : dropPre [btick, btick, btick] (c :: l) = none := by
    simp [dropPre, Ne.symm hc]
  simp [matchFenceAt, h3]

/-- The leftmost-match scan skips any backtick-free leading segment. -/
theorem findFence_append :
    ∀ (pre rest : List Char), (∀ c ∈ pre, c ≠ btick) →
      findFence (pre ++ rest) = findFence rest
  | [], _, _ => rfl
  | c :: pre, rest, h => by
    have hc : c ≠ btick := h c (List.mem_cons_self c pre)
    have hm := matchFenceAt_none_of_head_ne (pre ++ rest) hc
    simp only [List.cons_append, findFence, List.append_eq]
    rw [hm]
    exact findFence_append pre rest (fun d hd => h d (List.mem_cons_of_mem c hd))

/-- The lazy body stops at the first closing fence; a backtick-free body
is returned whole. -/
theorem upToFence_append :
    ∀ (body post : List Char), (∀ c ∈ body, c ≠ btick) →
      upToFence (body ++ btick :: btick :: btick :: post) = some body
  | [], _, _ => rfl
  | c :: body, post, h => by
    have hc : c ≠ btick := h c (List.mem_cons_self c body)
    have h3 : dropPre [btick, btick, btick] (c :: (body ++ btick :: btick :: btick :: post)) = none := by
      simp [dropPre, Ne.symm hc]
    simp only [List.cons_append, upToFence, List.append_eq]
    rw [h3, upToFence_append body post (fun d hd => h d (List.mem_cons_of_mem c hd))]
    rfl

theorem matchFenceAt_python (body post : List Char) (h : ∀ c ∈ body, c ≠ btick) :
    matchFenceAt (btick :: btick :: btick :: 'p' :: 'y' :: 't' :: 'h' :: 'o' :: 'n' :: '\n' ::
        (body ++ btick :: btick :: btick :: post)) = some body := by
  have hred : matchFenceAt (btick :: btick :: btick :: 'p' :: 'y' :: 't' :: 'h' :: 'o' :: 'n' :: '\n' ::
      (body ++ btick :: btick :: btick :: post)) = upToFence (body ++ btick :: btick :: btick :: post) := rfl
  rw [hred, upToFence_append body post h]

theorem matchFenceAt_plain (body post : List Char) (h : ∀ c ∈ body, c ≠ btick) :
    matchFenceAt (btick :: btick :: btick :: '\n' :: (body ++ btick :: btick :: btick :: post)) =
      some body := by
  have hred : matchFenceAt (btick :: btick :: btick :: '\n' :: (body ++ btick :: btick :: btick :: post)) =
      upToFence (body ++ btick :: btick :: btick :: post) := rfl
  rw [hred, upToFence_append body post h]

/-- **C5 (amended).** For every text of the form
`pre ++ "```python\n" ++ body ++ "```" ++ post` or
`pre ++ "```\n" ++ body ++ "```" ++ post` — a fenced block whose opening
fence carries the tag `python` or no tag (the source regex accepts no
other tag, in particular not `py`), preceded by backtick-free text and
with a backtick-free body — `extract_code` returns exactly the body of
that first block, tag stripped and leading/trailing whitespace removed,
ignoring everything after the closing fence. -/
theorem C5_fenced_extraction (pre body post : String)
    (hpre : ∀ c ∈ pre.data, c ≠ btick) (hbody : ∀ c ∈ body.data, c ≠ btick) :
    extract_code (pre ++ "```python\n" ++ body ++ "```" ++ post) =
      some (pyStrip body) ∧
    extract_code (pre ++ "```\n" ++ body ++ "```" ++ post) =
      some (pyStrip body) := by
  constructor
  · have hdata : (pre ++ "```python\n" ++ body ++ "```" ++ post).data =
        pre.data ++ (btick :: btick :: btick :: 'p' :: 'y' :: 't' :: 'h' :: 'o' :: 'n' :: '\n' ::
          (body.data ++ btick :: btick :: btick :: post.data)) := by
      simp [String.data_append]
      decide
    have hf : findFence (pre ++ "```python\n" ++ body ++ "```" ++ post).data =
        some body.data := by
      rw [hdata, findFence_append pre.data _ hpre, findFence,
        matchFenceAt_python body.data post.data hbody]
    simp only [extract_code]
    rw [hf]
  · have hdata : (pre ++ "```\n" ++ body ++ "```" ++ post).data =
        pre.data ++ (btick :: btick :: btick :: '\n' ::
          (body.data ++ btick :: btick :: btick :: post.data)) := by
      simp [String.data_append]
      decide
    have hf : findFence (pre ++ "```\n" ++ body ++ "```" ++ post).data =
        some body.data := by
      rw [hdata, findFence_append pre.data _ hpre, findFence,
        matchFenceAt_plain body.data post.data hbody]
    simp only [extract_code]
    rw [hf]

/-- Witness for C5: a concrete surrounding text with a tagged block. -/
theorem C5_fenced_extraction_witness :
    extract_code "see: ```python\nx = 1\n``` done." = some "x = 1" := by
  have h := (C5_fenced_extraction "see: " "x = 1\n" " done."
    (by decide) (by decide)).1
  have heq : ("see: " ++ "```python\n" ++ "x = 1\n" ++ "```" ++ " done." : String) =
      "see: ```python\nx = 1\n``` done." := by decide
  rw [heq] at h
  rw [h]
  decide

/-- **C5 counterexample.** The claim as stated is false: the `py` tag is
not recognized by the source regex, so a block opened with ```` ```py ````
is not extracted at all (and the indented fallback finds nothing either).
The claim predicted `some "x = 1"`. -/
theorem C5_counterexample :
    extract_code "```py\nx = 1\n```" = none ∧
    extract_code "```py\nx = 1\n```" ≠ some "x = 1" := by
  decide

/-! ## C6 — the indented-fallback extraction path -/

/-- Spec-side fallback: skip lines until the first indented one; take the
following run of indented-or-blank lines, keeping indented lines verbatim
and replacing blank lines by empty ones; absent when no indented line
exists. -/
def fallbackSpec (text : String) : Option String :=
  let rest := (splitNl text.data).dropWhile (fun l => !indentedLine l)
  let block := (rest.takeWhile (fun l => indentedLine l || pyBlank l)).map
    (fun l => if indentedLine l then l else [])
  if block.isEmpty then none else some (String.mk (joinNl block))

theorem collectIndented_true :
    ∀ ls : List (List Char),
      collectIndented ls true =
        (ls.takeWhile (fun l => indentedLine l || pyBlank l)).map
          (fun l => if indentedLine l then l else [])
  | [] => rfl
  | l :: ls => by
    by_cases hi : indentedLine l
    · simp [collectIndented, hi, List.takeWhile_cons, collectIndented_true ls]
    · by_cases hb : pyBlank l
      · simp [collectIndented, hi, hb, List.takeWhile_cons, collectIndented_true ls]
      · simp [collectIndented, hi, hb, List.takeWhile_cons]

theorem collectIndented_false :
    ∀ ls : List (List Char),
      collectIndented ls false =
        collectIndented (ls.dropWhile (fun l => !indentedLine l)) true
  | [] => rfl
  | l :: ls => by
    by_cases hi : indentedLine l
    · simp [collectIndented, hi, List.dropWhile_cons]
    · simp [collectIndented, hi, List.dropWhile_cons, collectIndented_false ls]

/-- **C6 (amended).** For every text containing no fenced block,
`extract_code` behaves as the fallback specification: it finds the first
contiguous run of lines each beginning with at least four spaces or one
tab (blank lines inside the run preserved as empty lines, the run ending
at the first non-indented non-blank line) and returns the run's lines
joined by newlines — verbatim, indentation preserved, **not**
de-indented; it returns absent when no such run exists, and in
particular returns absent for empty input. -/
theorem C6_indented_fallback (text : String)
    (h : findFence text.data = none) :
    extract_code text = fallbackSpec text ∧ extract_code "" = none := by
  refine ⟨?_, by decide⟩
  simp only [extract_code, fallbackSpec]
  rw [h, collectIndented_false, collectIndented_true]

/-- Witness for C6: a concrete fence-free input with one indented line. -/
theorem C6_indented_fallback_witness :
    findFence ("a\n    x = 1\nb" : String).data = none ∧
    extract_code "a\n    x = 1\nb" = fallbackSpec "a\n    x = 1\nb" := by
  exact ⟨by decide, (C6_indented_fallback "a\n    x = 1\nb" (by decide)).1⟩

/-- **C6 counterexample.** The claim as stated is false: the fallback
does not de-indent.  On the single indented line `"    x = 1"` the claim
predicts `some "x = 1"`, but the source returns the line verbatim with
its four leading spaces. -/
theorem C6_counterexample :
    extract_code "    x = 1" = some "    x = 1" ∧
    extract_code "    x = 1" ≠ some "x = 1" := by
  decide

end DM
